import Mathlib

/-!
Verification of the event-subscription and dispatch engine of go-marathon
(src/subscription.go), via a shallow embedding in Lean 4.

The client's mutable fields (`listeners`, `subscribedToSSE`, `eventsHTTP`,
`ipAddress`) become a `ClientState`; external collaborators (interface
address lookup, socket bind, Marathon API calls, JSON decoding, event
catalog) become a `ClientEnv` of explicit functions; side effects that the
claims count (launching the SSE loop, unsubscribe calls, channel closes,
spawned delivery goroutines, member mark-down, backoff sleeps) become an
`Effect` trace returned alongside each operation's result.  Channels are
identified by `Nat` handles.  The concurrency behaviour of dispatch /
detach / channel finalization is modelled separately as a labelled
transition system (`DStep`) over per-channel states.
-/

namespace Marathon

/-- Modelled from the spec: the transport selector constants
(`EventsTransportCallback`, `EventsTransportSSE`) are defined outside
src/subscription.go; the spec describes them as a closed two-variant
configuration enum encoded as an integer. -/
def EventsTransportCallback : Nat := 1

/-- Modelled from the spec: the SSE (Pull) transport selector constant,
defined outside src/subscription.go. -/
def EventsTransportSSE : Nat := 2

/-- Modelled from the spec: `defaultEventsURL`, the single intake path
installed on the local HTTP listener, is a constant defined outside
src/subscription.go. -/
def defaultEventsURL : String := "/event"

/-- The envelope type decoded first by `handleEvent`: a JSON object with an
event-type tag field (Go struct `EventType`). -/
structure EventType where
  eventType : String
deriving Repr, DecidableEq

/-- A decoded, identified event (Go struct `Event`): `id` is the numeric
identity bit (`event.ID`), `payload` stands for the typed decode target
(`event.Event`), kept abstract as a string. -/
structure Event where
  id : Nat
  payload : String
deriving Repr, DecidableEq

/-- Per-subscriber context stored in the listener registry
(Go struct `EventsChannelContext`): the interest filter bitmask.  The
`done` channel and `completion` wait group are modelled in the dispatch
transition system `DStep` below. -/
structure EventsChannelContext where
  filter : Nat
deriving Repr, DecidableEq

/-- The static configuration fields of the client that subscription.go
reads (`r.config`). -/
structure Config where
  eventsTransport : Nat
  callbackURL : String
  eventsPort : Nat
  eventsInterface : String
deriving Repr, DecidableEq

/-- The mutable state of the `marathonClient` that subscription.go touches:
the listener registry (a finite map from channel handle to context,
embedded as an association list with unique keys), the SSE idempotent-start
flag, the `r.eventsHTTP != nil` guard, and the resolved local IP address. -/
structure ClientState where
  config : Config
  listeners : List (Nat × EventsChannelContext)
  subscribedToSSE : Bool
  eventsHTTPSet : Bool
  sseLoopRunning : Bool
  ipAddress : String
deriving Repr, DecidableEq

/-- Observable side effects of the operations, recorded as a trace. -/
inductive Effect where
  /-- the SSE supervision goroutine is launched -/
  | launchSSELoop
  /-- `r.Unsubscribe(url)` is called -/
  | unsubscribeCall (url : String)
  /-- `close(context.done)` for this channel handle -/
  | closeDone (ch : Nat)
  /-- the finalizer goroutine (wait for completion, then `close(channel)`) is spawned -/
  | scheduleChannelClose (ch : Nat)
  /-- a delivery goroutine for this channel handle is spawned by `handleEvent` -/
  | spawnDelivery (ch : Nat)
  /-- `handleEvent` starts decoding this content -/
  | decodeAttempt (content : String)
  /-- `handleCallbackEvent` hands this body to `handleEvent` -/
  | handleEventCall (content : String)
  /-- `r.hosts.markDown(member)` is called -/
  | markDown (member : String)
  /-- the supervision loop sleeps the fixed 5-second backoff -/
  | backoff
deriving Repr, DecidableEq

/-- External collaborators used by subscription.go, as explicit functions:
interface address resolution, socket bind, the Marathon subscription API,
and the JSON decoding / event catalog steps of `handleEvent`. -/
structure ClientEnv where
  getInterfaceAddress : String → Except String String
  netListen : String → Except String Unit
  hasSubscription : String → Except String Bool
  subscribeCall : String → Except String Unit
  decodeEventType : String → Except String EventType
  getEvent : String → Except String Event
  decodeEvent : String → Event → Except String Event

/-- `SubscriptionURL` (subscription.go lines 92-98): the explicit callback
override if configured, else the URL derived from the bound address. -/
def SubscriptionURL (s : ClientState) : String :=
  if s.config.callbackURL ≠ "" then
    s.config.callbackURL ++ defaultEventsURL
  else
    "http://" ++ s.ipAddress ++ ":" ++ toString s.config.eventsPort ++ defaultEventsURL

/-- The `Bound -> Registered` phase of `registerCallbackSubscription`
(lines 147-162): compute the callback URL, query the remote registry,
register when absent. -/
def callbackRegisterPhase (env : ClientEnv) (s : ClientState) :
    ClientState × Except String Unit × List Effect :=
  let callback := SubscriptionURL s
  match env.hasSubscription callback with
  | .error e => (s, .error e, [])
  | .ok found =>
    if found then (s, .ok (), [])
    else
      match env.subscribeCall callback with
      | .error e => (s, .error e, [])
      | .ok _ => (s, .ok (), [])

/-- `registerCallbackSubscription` (lines 112-163).  When `r.eventsHTTP`
is not yet set: resolve the interface address (failure is returned with a
message), set `r.ipAddress` and `r.eventsHTTP`, then bind the listener.
NOTE: on bind failure the source executes `return nil` (line 137), i.e.
returns success without attempting registration — embedded faithfully. -/
def registerCallbackSubscription (env : ClientEnv) (s : ClientState) :
    ClientState × Except String Unit × List Effect :=
  if s.eventsHTTPSet then
    callbackRegisterPhase env s
  else
    match env.getInterfaceAddress s.config.eventsInterface with
    | .error e =>
      (s, .error ("Unable to get the ip address from the interface: " ++
        s.config.eventsInterface ++ ", error: " ++ e), [])
    | .ok ipAddress =>
      let s1 : ClientState := { s with ipAddress := ipAddress, eventsHTTPSet := true }
      let binding := ipAddress ++ ":" ++ toString s.config.eventsPort
      match env.netListen binding with
      | .error _ => (s1, .ok (), [])
      | .ok _ => callbackRegisterPhase env s1

/-- `registerSSESubscription` (lines 169-190): idempotent start guarded by
`r.subscribedToSSE`; on first call launches the supervision goroutine and
sets the flag. -/
def registerSSESubscription (s : ClientState) :
    ClientState × Except String Unit × List Effect :=
  if s.subscribedToSSE then (s, .ok (), [])
  else
    ({ s with subscribedToSSE := true, sseLoopRunning := true },
      .ok (), [Effect.launchSSELoop])

/-- `registerSubscription` (lines 101-110): dispatch on the configured
transport; an unknown transport yields the configuration error naming it. -/
def registerSubscription (env : ClientEnv) (s : ClientState) :
    ClientState × Except String Unit × List Effect :=
  if s.config.eventsTransport = EventsTransportCallback then
    registerCallbackSubscription env s
  else if s.config.eventsTransport = EventsTransportSSE then
    registerSSESubscription s
  else
    (s, .error ("the events transport: " ++ toString s.config.eventsTransport ++
      " is not supported"), [])

/-- `AddEventsListener` (lines 49-66): under the exclusive lock, run
`registerSubscription`; on failure return the error (no listener added);
on success create a fresh channel (`freshChan`, a handle not yet in use)
and insert it with the given filter. -/
def AddEventsListener (env : ClientEnv) (s : ClientState)
    (filter : Nat) (freshChan : Nat) :
    ClientState × Except String Nat × List Effect :=
  match registerSubscription env s with
  | (s1, .error e, effs) => (s1, .error e, effs)
  | (s1, .ok _, effs) =>
    ({ s1 with listeners := (freshChan, ⟨filter⟩) :: s1.listeners },
      .ok freshChan, effs)

/-- `RemoveEventsListener` (lines 70-89): under the exclusive lock, if the
channel is a key of the registry: close its done signal, delete it, make
one `Unsubscribe` call when the callback transport is in use and the
registry became empty, and spawn the finalizer that waits for in-flight
deliveries and then closes the channel.  Otherwise nothing happens. -/
def RemoveEventsListener (s : ClientState) (channel : Nat) :
    ClientState × List Effect :=
  match s.listeners.lookup channel with
  | none => (s, [])
  | some _ =>
    let remaining := s.listeners.filter (fun p => p.1 != channel)
    let unsubEffs :=
      if s.config.eventsTransport = EventsTransportCallback ∧ remaining.length = 0
      then [Effect.unsubscribeCall (SubscriptionURL s)] else []
    ({ s with listeners := remaining },
      Effect.closeDone channel :: unsubEffs ++ [Effect.scheduleChannelClose channel])

/-- `handleEvent` (lines 265-305): decode the envelope to the event-type
tag; look the tag up in the event catalog (`GetEvent`); decode the full
payload into the catalog target; then, under the read lock, spawn one
delivery goroutine for every listener whose filter intersects the event's
identity bit (`event.ID & context.filter != 0`).  The client state is only
read, never written. -/
def handleEvent (env : ClientEnv) (s : ClientState) (content : String) :
    Except String Unit × List Effect :=
  match env.decodeEventType content with
  | .error e =>
    (.error ("failed to decode the event type, content: " ++ content ++
      ", error: " ++ e), [Effect.decodeAttempt content])
  | .ok eventType =>
    match env.getEvent eventType.eventType with
    | .error e =>
      (.error ("unable to handle event, type: " ++ eventType.eventType ++
        ", error: " ++ e), [Effect.decodeAttempt content])
    | .ok target =>
      match env.decodeEvent content target with
      | .error e =>
        (.error ("failed to decode the event, id: " ++ toString target.id ++
          ", error: " ++ e), [Effect.decodeAttempt content])
      | .ok event =>
        (.ok (),
          Effect.decodeAttempt content ::
            s.listeners.filterMap (fun p =>
              if event.id &&& p.2.filter != 0
              then some (Effect.spawnDelivery p.1) else none))

/-- The sequential processing of payloads done by the `listenToSSE` read
loop (lines 218-230): each item is decoded and dispatched independently;
failures are logged and do not affect later items. -/
def processPayloads (env : ClientEnv) (s : ClientState) (contents : List String) :
    List (Except String Unit × List Effect) :=
  contents.map (handleEvent env s)

/-- The default success status net/http reports when a handler writes no
explicit status. -/
def defaultSuccessStatus : Nat := 200

/-- `handleCallbackEvent` (lines 307-319): read the request body; a read
failure is logged and the handler returns (default success status, no
decode); otherwise the body — empty or not — is handed to `handleEvent`,
and the request completes with the default success status regardless of
the dispatch outcome. -/
def handleCallbackEvent (env : ClientEnv) (s : ClientState)
    (bodyRead : Except String String) : Nat × List Effect :=
  match bodyRead with
  | .error _ => (defaultSuccessStatus, [])
  | .ok body =>
    let handled := handleEvent env s body
    (defaultSuccessStatus, Effect.handleEventCall body :: handled.2)

/-- Outcome of one `buildAPIRequest` call inside `connectToSSE`: success
with the selected member, a structural `newRequestError`, or any other
construction failure. -/
inductive BuildResult where
  | ok (member : String)
  | newRequestErr (msg : String)
  | otherErr (msg : String)
deriving Repr, DecidableEq

/-- Result of `connectToSSE`: a panic (structural request-construction
failure), a transient error returned to the supervision loop, a
successful stream against a member, or exhaustion of the modelling fuel. -/
inductive SSEConnectResult where
  | panicked (msg : String)
  | failed (msg : String)
  | connected (member : String)
  | outOfFuel
deriving Repr, DecidableEq

/-- `connectToSSE` (lines 195-216): loop over request-construction
attempts (`build k` is the k-th `buildAPIRequest` outcome, `handshake k
member` the k-th `eventsource.SubscribeWith` outcome).  A
`newRequestError` panics; any other construction error is returned
immediately; a handshake failure marks the member down and re-enters the
loop with no backoff.  The loop is embedded with explicit fuel. -/
def connectToSSE (build : Nat → BuildResult)
    (handshake : Nat → String → Except String Unit) :
    Nat → Nat → SSEConnectResult × List Effect
  | 0, _ => (.outOfFuel, [])
  | fuel + 1, k =>
    match build k with
    | .newRequestErr msg =>
      (.panicked ("Requests for SSE subscriptions should never fail to be created: "
        ++ msg), [])
    | .otherErr msg => (.failed msg, [])
    | .ok member =>
      match handshake k member with
      | .error _ =>
        let rest := connectToSSE build handshake fuel (k + 1)
        (rest.1, Effect.markDown member :: rest.2)
      | .ok _ => (.connected member, [])

/-- True on the delivery-spawning effects of a trace. -/
def Effect.isSpawn : Effect → Bool
  | .spawnDelivery _ => true
  | _ => false

/-!
Transition-system model of the dispatch / detach / finalize concurrency
(claims about `context.completion` and channel closing).  Each channel
handle carries: whether it is currently a key of the listener registry,
its in-flight delivery count (the `sync.WaitGroup` counter), whether its
done signal has been closed, whether the finalizer goroutine spawned by
`RemoveEventsListener` is pending, and whether the delivery channel itself
has been closed.
-/

/-- Per-channel concurrency state. -/
structure SubSt where
  registered : Bool
  inFlight : Nat
  doneClosed : Bool
  closerPending : Bool
  chanClosed : Bool
deriving Repr, DecidableEq

/-- The state of a channel handle that has never been used. -/
def SubSt.fresh : SubSt :=
  ⟨false, 0, false, false, false⟩

/-- Global concurrency state: one `SubSt` per channel handle. -/
def DState := Nat → SubSt

/-- Point update of a `DState`. -/
def setSub (s : DState) (c : Nat) (v : SubSt) : DState :=
  fun c' => if c' = c then v else s c'

/-- Interleaving semantics of subscription.go's concurrency.  Steps:
`attach` creates a fresh channel under the write lock (`AddEventsListener`);
`dispatch` is `handleEvent` under the read lock incrementing the wait group
and spawning a delivery (`context.completion.Add(1)`); `taskDone` is a
delivery goroutine resolving its send/done race and calling
`completion.Done()`; `detach` is `RemoveEventsListener` finding the
channel: close done, delete from the registry, spawn the finalizer;
`closeChan` is the finalizer returning from `completion.Wait()` — enabled
only when the in-flight count is zero — and closing the channel. -/
inductive DStep : DState → DState → Prop where
  | attach (s : DState) (c : Nat) (h : s c = SubSt.fresh) :
      DStep s (setSub s c { SubSt.fresh with registered := true })
  | dispatch (s : DState) (c : Nat) (h : (s c).registered = true) :
      DStep s (setSub s c { s c with inFlight := (s c).inFlight + 1 })
  | taskDone (s : DState) (c : Nat) (h : 0 < (s c).inFlight) :
      DStep s (setSub s c { s c with inFlight := (s c).inFlight - 1 })
  | detach (s : DState) (c : Nat) (h : (s c).registered = true) :
      DStep s (setSub s c
        { s c with registered := false, doneClosed := true, closerPending := true })
  | closeChan (s : DState) (c : Nat) (h1 : (s c).closerPending = true)
      (h2 : (s c).inFlight = 0) :
      DStep s (setSub s c { s c with closerPending := false, chanClosed := true })

/-- The initial concurrency state: no channel has ever been used. -/
def initDState : DState := fun _ => SubSt.fresh

/-- A state is reachable when a finite interleaving of steps produces it
from the initial state. -/
def DReachable (s : DState) : Prop :=
  Relation.ReflTransGen DStep initDState s

/-- The inductive invariant: a closed channel has no in-flight delivery,
is not registered and has no pending finalizer; a pending finalizer
implies the channel was removed from the registry. -/
def DInv (s : DState) : Prop :=
  ∀ c : Nat,
    ((s c).chanClosed = true →
      (s c).inFlight = 0 ∧ (s c).registered = false ∧ (s c).closerPending = false) ∧
    ((s c).closerPending = true → (s c).registered = false)

/-!
Concrete inputs used by the witness and counterexample theorems.
-/

/-- An environment whose decode chain succeeds: every payload decodes to
the tag "deployment_info", carried in the catalog with identity bit 4. -/
def matchEnv : ClientEnv where
  getInterfaceAddress := fun _ => .ok "10.0.0.1"
  netListen := fun _ => .ok ()
  hasSubscription := fun _ => .ok true
  subscribeCall := fun _ => .ok ()
  decodeEventType := fun _ => .ok ⟨"deployment_info"⟩
  getEvent := fun tag =>
    if tag = "deployment_info" then .ok ⟨4, ""⟩ else .error "unknown event type"
  decodeEvent := fun content target => .ok { target with payload := content }

/-- An environment whose envelope decodes but whose event-type tag is not
in the catalog, and where every envelope decode of the empty string fails
(as the JSON decoder does on empty input). -/
def unknownTagEnv : ClientEnv where
  getInterfaceAddress := fun _ => .ok "10.0.0.1"
  netListen := fun _ => .ok ()
  hasSubscription := fun _ => .ok true
  subscribeCall := fun _ => .ok ()
  decodeEventType := fun content =>
    if content = "" then .error "EOF" else .ok ⟨"bogus_event"⟩
  getEvent := fun _ => .error "unknown event"
  decodeEvent := fun _ target => .ok target

/-- An environment where resolving the interface succeeds but binding the
local TCP listener fails. -/
def bindFailEnv : ClientEnv where
  getInterfaceAddress := fun _ => .ok "192.168.0.10"
  netListen := fun _ => .error "bind: address already in use"
  hasSubscription := fun _ => .ok false
  subscribeCall := fun _ => .ok ()
  decodeEventType := fun _ => .error "EOF"
  getEvent := fun _ => .error "unknown event"
  decodeEvent := fun _ target => .ok target

/-- A pristine client configured for the SSE (Pull) transport. -/
def sseBaseState : ClientState where
  config := { eventsTransport := EventsTransportSSE, callbackURL := "",
              eventsPort := 10001, eventsInterface := "eth0" }
  listeners := []
  subscribedToSSE := false
  eventsHTTPSet := false
  sseLoopRunning := false
  ipAddress := ""

/-- A pristine client configured for the callback (Push) transport. -/
def callbackBaseState : ClientState where
  config := { eventsTransport := EventsTransportCallback, callbackURL := "",
              eventsPort := 10001, eventsInterface := "eth0" }
  listeners := []
  subscribedToSSE := false
  eventsHTTPSet := false
  sseLoopRunning := false
  ipAddress := ""

/-- A callback-transport client holding exactly one listener (handle 7). -/
def oneListenerState : ClientState :=
  { callbackBaseState with listeners := [(7, ⟨3⟩)] }

/-- A callback-transport client holding two listeners (handles 7 and 9). -/
def twoListenerState : ClientState :=
  { callbackBaseState with listeners := [(7, ⟨3⟩), (9, ⟨5⟩)] }

/-- An SSE-transport client whose supervision loop has already started. -/
def sseStartedState : ClientState :=
  { sseBaseState with subscribedToSSE := true, sseLoopRunning := true }

/-- Concurrency state after attaching channel 0. -/
def dAttached : DState :=
  setSub initDState 0 { SubSt.fresh with registered := true }

/-- Concurrency state after then detaching channel 0. -/
def dDetached : DState :=
  setSub dAttached 0
    { dAttached 0 with registered := false, doneClosed := true, closerPending := true }

/-- Concurrency state after the finalizer then closed channel 0. -/
def dClosed : DState :=
  setSub dDetached 0 { dDetached 0 with closerPending := false, chanClosed := true }

/-- Request-construction schedule for the SSE connect witness: the first
member's handshake fails, the second succeeds. -/
def wBuild : Nat → BuildResult := fun k =>
  if k = 0 then .ok "m1" else if k = 1 then .ok "m2" else .otherErr "no members"

/-- Handshake schedule for the SSE connect witness. -/
def wShake : Nat → String → Except String Unit := fun k _ =>
  if k = 0 then .error "handshake refused" else .ok ()

/-- Request-construction schedule that fails structurally at once. -/
def nrBuild : Nat → BuildResult := fun _ => .newRequestErr "nil url"

/-- Request-construction schedule that fails transiently at once. -/
def otBuild : Nat → BuildResult := fun _ => .otherErr "marathon: all hosts are down"

/-- A client whose configured transport is neither callback nor SSE. -/
def badTransportState : ClientState :=
  { callbackBaseState with
    config := { callbackBaseState.config with eventsTransport := 99 } }

/-- True on the unsubscribe-call effects of a trace. -/
def Effect.isUnsub : Effect → Bool
  | .unsubscribeCall _ => true
  | _ => false

/-!
Helper lemmas shared by the claim theorems.
-/

/-- Explicit form of `RemoveEventsListener` when the channel is found. -/
theorem removeEventsListener_found (s : ClientState) (ch : Nat)
    (ctx : EventsChannelContext) (hfound : s.listeners.lookup ch = some ctx) :
    RemoveEventsListener s ch =
      ({ s with listeners := s.listeners.filter (fun p => p.1 != ch) },
        Effect.closeDone ch ::
          (if s.config.eventsTransport = EventsTransportCallback ∧
              (s.listeners.filter (fun p => p.1 != ch)).length = 0
           then [Effect.unsubscribeCall (SubscriptionURL s)] else []) ++
          [Effect.scheduleChannelClose ch]) := by
  unfold RemoveEventsListener
  rw [hfound]

/-- No branch of `registerSubscription` touches the listener registry. -/
theorem registerSubscription_listeners (env : ClientEnv) (s : ClientState) :
    ((registerSubscription env s).1).listeners = s.listeners := by
  unfold registerSubscription registerCallbackSubscription callbackRegisterPhase
    registerSSESubscription
  dsimp only
  repeat' split
  all_goals rfl

/-- On a setup failure, `AddEventsListener` hands back the registry
unchanged. -/
theorem addEventsListener_error_listeners (env : ClientEnv) (s s' : ClientState)
    (filter freshChan : Nat) (e : String) (effs : List Effect)
    (h : AddEventsListener env s filter freshChan = (s', .error e, effs)) :
    s'.listeners = s.listeners := by
  have hreg := registerSubscription_listeners env s
  unfold AddEventsListener at h
  rcases hr : registerSubscription env s with ⟨s1, r, es⟩
  rw [hr] at h hreg
  cases r with
  | error e' =>
    obtain ⟨h1, -, -⟩ := Prod.mk.injEq .. ▸ h
    simp only [Prod.mk.injEq] at h
    exact h.1 ▸ hreg
  | ok u => simp only [Prod.mk.injEq] at h; exact absurd h.2.1 (by simp)

/-- On a successful attach, the new registry is the fresh channel consed
onto the old one. -/
theorem addEventsListener_ok_listeners (env : ClientEnv) (s s' : ClientState)
    (filter freshChan ch : Nat) (effs : List Effect)
    (h : AddEventsListener env s filter freshChan = (s', .ok ch, effs)) :
    s'.listeners = (freshChan, ⟨filter⟩) :: s.listeners := by
  have hreg := registerSubscription_listeners env s
  unfold AddEventsListener at h
  rcases hr : registerSubscription env s with ⟨s1, r, es⟩
  rw [hr] at h hreg
  cases r with
  | error e' => simp only [Prod.mk.injEq] at h; exact absurd h.2.1 (by simp)
  | ok u =>
    simp only [Prod.mk.injEq] at h
    rw [← h.1, ← hreg]

/-- Membership of a spawned delivery in `handleEvent`'s trace, when the
whole decode chain succeeds. -/
theorem handleEvent_spawn_mem (env : ClientEnv) (s : ClientState)
    (content : String) (et : EventType) (tgt ev : Event) (ch : Nat)
    (h1 : env.decodeEventType content = .ok et)
    (h2 : env.getEvent et.eventType = .ok tgt)
    (h3 : env.decodeEvent content tgt = .ok ev) :
    (Effect.spawnDelivery ch ∈ (handleEvent env s content).2 ↔
      ∃ p ∈ s.listeners, p.1 = ch ∧ ev.id &&& p.2.filter ≠ 0) := by
  simp only [handleEvent, h1, h2, h3]
  constructor
  · intro hmem
    rcases List.mem_cons.mp hmem with hhd | htl
    · exact absurd hhd (by simp)
    · rcases List.mem_filterMap.mp htl with ⟨p, hp, hcond⟩
      by_cases hm : ev.id &&& p.2.filter != 0
      · rw [if_pos hm, Option.some.injEq] at hcond
        refine ⟨p, hp, ?_, by simpa using hm⟩
        cases hcond; rfl
      · rw [if_neg hm] at hcond; cases hcond
  · rintro ⟨p, hp, hch, hm⟩
    refine List.mem_cons.mpr (Or.inr (List.mem_filterMap.mpr ⟨p, hp, ?_⟩))
    rw [if_pos (by simpa using hm), hch]

/-- After filtering out a key, looking that key up fails. -/
theorem lookup_filter_key_self (l : List (Nat × EventsChannelContext)) (ch : Nat) :
    (l.filter (fun p => p.1 != ch)).lookup ch = none := by
  induction l with
  | nil => rfl
  | cons p t ih =>
    obtain ⟨k, v⟩ := p
    by_cases hp : k = ch
    · simpa [List.filter, hp] using ih
    · have hb : (k != ch) = true := by simpa using hp
      have hbe : (ch == k) = false := by simpa using Ne.symm hp
      simp only [List.filter, hb, List.lookup, hbe]
      exact ih

/-!
The C2 transition-system invariant.
-/

/-- The invariant holds initially. -/
theorem dinv_init : DInv initDState := by
  intro c
  constructor
  · intro h; exact absurd h (by simp [initDState, SubSt.fresh])
  · intro h; exact absurd h (by simp [initDState, SubSt.fresh])

/-- The invariant is preserved by every step. -/
theorem dinv_step (s t : DState) (hinv : DInv s) (hstep : DStep s t) : DInv t := by
  cases hstep with
  | attach c h =>
    intro c'
    by_cases hc : c' = c
    · subst hc; constructor <;> simp [setSub, SubSt.fresh]
    · simpa [setSub, hc] using hinv c'
  | dispatch c h =>
    intro c'
    by_cases hc : c' = c
    · subst hc
      constructor
      · intro hcl
        simp only [setSub, if_pos rfl] at hcl
        rcases (hinv c').1 hcl with ⟨-, hreg, -⟩
        rw [h] at hreg; cases hreg
      · intro hcp
        simp only [setSub, if_pos rfl] at hcp ⊢
        exact (hinv c').2 hcp
    · simpa [setSub, hc] using hinv c'
  | taskDone c h =>
    intro c'
    by_cases hc : c' = c
    · subst hc
      constructor
      · intro hcl
        simp only [setSub, if_pos rfl] at hcl
        rcases (hinv c').1 hcl with ⟨hz, -, -⟩
        rw [hz] at h; cases h
      · intro hcp
        simp only [setSub, if_pos rfl] at hcp ⊢
        exact (hinv c').2 hcp
    · simpa [setSub, hc] using hinv c'
  | detach c h =>
    intro c'
    by_cases hc : c' = c
    · subst hc
      constructor
      · intro hcl
        simp only [setSub, if_pos rfl] at hcl
        rcases (hinv c').1 hcl with ⟨-, hreg, -⟩
        rw [h] at hreg; cases hreg
      · intro _
        simp [setSub]
    · simpa [setSub, hc] using hinv c'
  | closeChan c h1 h2 =>
    intro c'
    by_cases hc : c' = c
    · subst hc
      constructor
      · intro _
        simp only [setSub, if_pos rfl]
        exact ⟨h2, (hinv c').2 h1, rfl⟩
      · intro hcp
        simp only [setSub, if_pos rfl] at hcp
        cases hcp
    · simpa [setSub, hc] using hinv c'

/-- Every reachable concurrency state satisfies the invariant. -/
theorem dinv_reachable (s : DState) (h : DReachable s) : DInv s := by
  induction h with
  | refl => exact dinv_init
  | tail _ hstep ih => exact dinv_step _ _ ih hstep

/-!
Claim theorems.
-/

/-- Claim C1: a subscriber attached via `AddEventsListener` with filter
mask `filter` is spawned a delivery of a successfully decoded event with
identity `i` if and only if the bitwise intersection `filter &&& i` is
non-zero. -/
theorem attachedListenerReceivesIffFilterMatches
    (env : ClientEnv) (s s' : ClientState) (filter freshChan i : Nat)
    (content : String) (effs : List Effect) (et : EventType) (tgt ev : Event)
    (hfresh : ∀ p ∈ s.listeners, p.1 ≠ freshChan)
    (hattach : AddEventsListener env s filter freshChan = (s', .ok freshChan, effs))
    (h1 : env.decodeEventType content = .ok et)
    (h2 : env.getEvent et.eventType = .ok tgt)
    (h3 : env.decodeEvent content tgt = .ok ev)
    (hid : ev.id = i) :
    Effect.spawnDelivery freshChan ∈ (handleEvent env s' content).2 ↔
      filter &&& i ≠ 0 := by
  have hls := addEventsListener_ok_listeners env s s' filter freshChan freshChan effs hattach
  rw [handleEvent_spawn_mem env s' content et tgt ev freshChan h1 h2 h3]
  subst hid
  rw [hls]
  constructor
  · rintro ⟨p, hp, hch, hm⟩
    rcases List.mem_cons.mp hp with rfl | hmem
    · simpa [Nat.land_comm] using hm
    · exact absurd hch (hfresh p hmem)
  · intro hm
    exact ⟨(freshChan, ⟨filter⟩), List.mem_cons_self _ _, rfl,
      by simpa [Nat.land_comm] using hm⟩

/-- Claim C1 witness: attaching channel 5 with filter 6 to a pristine SSE
client and decoding an event of identity 4 spawns a delivery to it iff
6 &&& 4 is non-zero. -/
theorem attachedListenerReceivesIffFilterMatchesWitness :
    Effect.spawnDelivery 5 ∈
      (handleEvent matchEnv (AddEventsListener matchEnv sseBaseState 6 5).1 "x").2 ↔
      6 &&& 4 ≠ 0 :=
  attachedListenerReceivesIffFilterMatches matchEnv sseBaseState
    (AddEventsListener matchEnv sseBaseState 6 5).1 6 5 4 "x" [Effect.launchSSELoop]
    ⟨"deployment_info"⟩ ⟨4, ""⟩ ⟨4, "x"⟩
    (by simp [sseBaseState]) rfl rfl rfl rfl rfl

/-- Claim C2: in every reachable interleaving of detaches with in-flight
dispatches, a subscriber's delivery channel is closed only once its
in-flight delivery count is zero and it has left the registry, so no
delivery task (which requires a positive in-flight count to attempt its
send) ever sends on a closed channel. -/
theorem channelClosedOnlyAfterQuiescence (s : DState) (h : DReachable s) (c : Nat)
    (hclosed : (s c).chanClosed = true) :
    (s c).inFlight = 0 ∧ (s c).registered = false :=
  ⟨((dinv_reachable s h c).1 hclosed).1, ((dinv_reachable s h c).1 hclosed).2.1⟩

/-- Claim C2 witness: the interleaving attach, detach, finalize of channel
0 reaches a state with the channel closed, where the theorem applies. -/
theorem channelClosedOnlyAfterQuiescenceWitness :
    (dClosed 0).chanClosed = true ∧
      ((dClosed 0).inFlight = 0 ∧ (dClosed 0).registered = false) :=
  ⟨by decide,
    channelClosedOnlyAfterQuiescence dClosed
      (Relation.ReflTransGen.tail (Relation.ReflTransGen.tail
        (Relation.ReflTransGen.single (DStep.attach initDState 0 rfl))
        (DStep.detach dAttached 0 rfl))
        (DStep.closeChan dDetached 0 rfl rfl))
      0 (by decide)⟩

/-- Claim C3 (code bug): when binding the local HTTP listener fails during
first-attach Push setup, `registerCallbackSubscription` returns success
instead of surfacing the failure (source line 137 executes `return nil`),
so `AddEventsListener` succeeds and installs a subscriber. -/
theorem bindFailureSwallowed :
    (registerCallbackSubscription bindFailEnv callbackBaseState).2.1 = .ok () ∧
    (AddEventsListener bindFailEnv callbackBaseState 3 0).2.1 = .ok 0 ∧
    ((AddEventsListener bindFailEnv callbackBaseState 3 0).1).listeners = [(0, ⟨3⟩)] :=
  ⟨rfl, rfl, rfl⟩

/-- Claim C4: an attach under a transport that is neither callback nor SSE
fails with the configuration error naming the invalid transport
identifier, and no setup failure ever adds a subscriber to the registry. -/
theorem unknownTransportAttachFails
    (s : ClientState)
    (hcb : s.config.eventsTransport ≠ EventsTransportCallback)
    (hsse : s.config.eventsTransport ≠ EventsTransportSSE) :
    (∀ env filter freshChan,
      AddEventsListener env s filter freshChan =
        (s, .error ("the events transport: " ++ toString s.config.eventsTransport ++
          " is not supported"), [])) ∧
    (∀ (env : ClientEnv) (s0 s' : ClientState) filter freshChan e effs,
      AddEventsListener env s0 filter freshChan = (s', .error e, effs) →
        s'.listeners = s0.listeners) := by
  constructor
  · intro env filter freshChan
    unfold AddEventsListener registerSubscription
    rw [if_neg hcb, if_neg hsse]
  · intro env s0 s' filter freshChan e effs h
    exact addEventsListener_error_listeners env s0 s' filter freshChan e effs h

/-- Claim C4 witness: attaching under transport identifier 99 yields the
configuration error naming it, with no subscriber added. -/
theorem unknownTransportAttachFailsWitness :
    AddEventsListener matchEnv badTransportState 1 0 =
      (badTransportState,
        .error ("the events transport: " ++
          toString badTransportState.config.eventsTransport ++ " is not supported"),
        []) :=
  (unknownTransportAttachFails badTransportState (by decide) (by decide)).1 matchEnv 1 0

/-- Claim C5: a payload whose envelope decodes but whose event-type tag is
not in the catalog makes `handleEvent` return the unknown-event error with
zero deliveries spawned to any subscriber, and subsequent payloads are
processed exactly as they would be on their own. -/
theorem unknownEventTagNoDeliveries
    (env : ClientEnv) (s : ClientState) (content : String) (et : EventType)
    (e : String) (rest : List String)
    (h1 : env.decodeEventType content = .ok et)
    (h2 : env.getEvent et.eventType = .error e) :
    handleEvent env s content =
      (.error ("unable to handle event, type: " ++ et.eventType ++ ", error: " ++ e),
        [Effect.decodeAttempt content]) ∧
    (∀ ch, Effect.spawnDelivery ch ∉ (handleEvent env s content).2) ∧
    processPayloads env s (content :: rest) =
      handleEvent env s content :: processPayloads env s rest := by
  have hh : handleEvent env s content =
      (.error ("unable to handle event, type: " ++ et.eventType ++ ", error: " ++ e),
        [Effect.decodeAttempt content]) := by
    simp only [handleEvent, h1, h2]
  refine ⟨hh, ?_, rfl⟩
  intro ch
  rw [hh]
  simp

/-- Claim C5 witness: a payload decoding to the unknown tag produces the
unknown-event error and the trace holds only the decode attempt. -/
theorem unknownEventTagNoDeliveriesWitness :
    handleEvent unknownTagEnv oneListenerState "bogus payload" =
      (.error ("unable to handle event, type: " ++ "bogus_event" ++ ", error: " ++
        "unknown event"), [Effect.decodeAttempt "bogus payload"]) :=
  (unknownEventTagNoDeliveries unknownTagEnv oneListenerState "bogus payload"
    ⟨"bogus_event"⟩ "unknown event" [] rfl rfl).1

/-- Claim C6: under the callback transport, removing the last registered
subscriber makes exactly one unsubscribe call against the callback URL;
removing while other subscribers remain makes none. -/
theorem lastDetachUnsubscribesOnce
    (s : ClientState) (ch : Nat) (ctx : EventsChannelContext)
    (hcb : s.config.eventsTransport = EventsTransportCallback)
    (hfound : s.listeners.lookup ch = some ctx) :
    ((s.listeners.filter (fun p => p.1 != ch) = []) →
      (RemoveEventsListener s ch).2.filter Effect.isUnsub =
        [Effect.unsubscribeCall (SubscriptionURL s)]) ∧
    ((s.listeners.filter (fun p => p.1 != ch) ≠ []) →
      (RemoveEventsListener s ch).2.filter Effect.isUnsub = []) := by
  rw [removeEventsListener_found s ch ctx hfound]
  constructor
  · intro hrem
    rw [if_pos ⟨hcb, by simp [hrem]⟩]
    simp [Effect.isUnsub]
  · intro hrem
    rw [if_neg ?hcond]
    · simp [Effect.isUnsub]
    · rintro ⟨-, hlen⟩
      exact hrem (List.length_eq_zero.mp hlen)

/-- Claim C6 witness: removing the only subscriber of a callback-transport
client makes exactly the one unsubscribe call. -/
theorem lastDetachUnsubscribesOnceWitness :
    (RemoveEventsListener oneListenerState 7).2.filter Effect.isUnsub =
      [Effect.unsubscribeCall (SubscriptionURL oneListenerState)] :=
  (lastDetachUnsubscribesOnce oneListenerState 7 ⟨3⟩ rfl rfl).1 (by decide)

/-- Claim C7 counterexample: when the intake handler's body read succeeds
with the empty body, the body is still handed to `handleEvent` and a
decode attempt does occur, refuting the claim that no decode attempt
occurs on an empty body. -/
theorem emptyBodyStillDecoded :
    Effect.decodeAttempt "" ∈
      (handleCallbackEvent unknownTagEnv callbackBaseState (.ok "")).2 := by decide

/-- Claim C7 (amended): a successfully read body — empty or not — is
handed to the decode/dispatch pipeline (so an empty body leads to a decode
attempt that fails and is logged), and the request completes with the
default success status regardless of the dispatch outcome; a failed body
read produces no decode attempt and the same success status; no panic
occurs in either case. -/
theorem intakeHandlerAlwaysSucceeds (env : ClientEnv) (s : ClientState) :
    (∀ body, handleCallbackEvent env s (.ok body) =
      (defaultSuccessStatus, Effect.handleEventCall body :: (handleEvent env s body).2)) ∧
    (∀ e, handleCallbackEvent env s (.error e) = (defaultSuccessStatus, [])) :=
  ⟨fun _ => rfl, fun _ => rfl⟩

/-- Claim C8: in `connectToSSE`, a structural request-construction failure
(`newRequestError`) panics; any other construction failure is returned at
once as a transient error; a failed handshake marks that member down and
immediately re-enters member selection; and no backoff delay ever occurs
inside the connect loop. -/
theorem connectToSSEFailurePolicy :
    (∀ build handshake fuel k msg, build k = BuildResult.newRequestErr msg →
      connectToSSE build handshake (fuel + 1) k =
        (.panicked ("Requests for SSE subscriptions should never fail to be created: "
          ++ msg), [])) ∧
    (∀ build handshake fuel k msg, build k = BuildResult.otherErr msg →
      connectToSSE build handshake (fuel + 1) k = (.failed msg, [])) ∧
    (∀ build handshake fuel k member e, build k = BuildResult.ok member →
      handshake k member = .error e →
      connectToSSE build handshake (fuel + 1) k =
        ((connectToSSE build handshake fuel (k + 1)).1,
          Effect.markDown member :: (connectToSSE build handshake fuel (k + 1)).2)) ∧
    (∀ build handshake fuel k,
      Effect.backoff ∉ (connectToSSE build handshake fuel k).2) := by
  refine ⟨?_, ?_, ?_, ?_⟩
  · intro build handshake fuel k msg h
    simp [connectToSSE, h]
  · intro build handshake fuel k msg h
    simp [connectToSSE, h]
  · intro build handshake fuel k member e hb hs
    simp [connectToSSE, hb, hs]
  · intro build handshake fuel
    induction fuel with
    | zero => intro k; simp [connectToSSE]
    | succ n ih =>
      intro k
      cases hb : build k with
      | newRequestErr msg => simp [connectToSSE, hb]
      | otherErr msg => simp [connectToSSE, hb]
      | ok member =>
        cases hs : handshake k member with
        | error e => simpa [connectToSSE, hb, hs] using ih (k + 1)
        | ok u => simp [connectToSSE, hb, hs]

/-- Claim C8 witness: a structural failure panics; a transient failure is
returned; a handshake failure against member m1 marks it down and retries
the next member at once. -/
theorem connectToSSEFailurePolicyWitness :
    (connectToSSE nrBuild wShake 1 0 =
      (.panicked ("Requests for SSE subscriptions should never fail to be created: "
        ++ "nil url"), [])) ∧
    (connectToSSE otBuild wShake 1 0 = (.failed "marathon: all hosts are down", [])) ∧
    (connectToSSE wBuild wShake 2 0 =
      ((connectToSSE wBuild wShake 1 1).1,
        Effect.markDown "m1" :: (connectToSSE wBuild wShake 1 1).2)) :=
  ⟨connectToSSEFailurePolicy.1 nrBuild wShake 0 0 "nil url" rfl,
   connectToSSEFailurePolicy.2.1 otBuild wShake 0 0 "marathon: all hosts are down" rfl,
   connectToSSEFailurePolicy.2.2.1 wBuild wShake 1 0 "m1" "handshake refused" rfl rfl⟩

/-- Claim C9: starting the SSE transport is idempotent — once the started
flag is set, every later call returns success with the state unchanged and
launches no second supervision loop — and the supervision loop, once
running, survives every detach. -/
theorem sseStartIdempotentAndNeverTornDown :
    (∀ s, s.subscribedToSSE = true → registerSSESubscription s = (s, .ok (), [])) ∧
    (∀ s, ((registerSSESubscription s).1).subscribedToSSE = true) ∧
    (∀ s, s.sseLoopRunning = true → ((registerSSESubscription s).1).sseLoopRunning = true) ∧
    (∀ s ch, ((RemoveEventsListener s ch).1).subscribedToSSE = s.subscribedToSSE ∧
      ((RemoveEventsListener s ch).1).sseLoopRunning = s.sseLoopRunning) := by
  refine ⟨?_, ?_, ?_, ?_⟩
  · intro s h
    unfold registerSSESubscription
    rw [if_pos h]
  · intro s
    unfold registerSSESubscription
    by_cases h : s.subscribedToSSE <;> simp [h]
  · intro s h
    unfold registerSSESubscription
    by_cases hs : s.subscribedToSSE <;> simp [hs, h]
  · intro s ch
    unfold RemoveEventsListener
    cases s.listeners.lookup ch with
    | none => exact ⟨rfl, rfl⟩
    | some ctx => exact ⟨rfl, rfl⟩

/-- Claim C9 witness: a second start on an already-started SSE client
returns success and changes nothing. -/
theorem sseStartIdempotentAndNeverTornDownWitness :
    registerSSESubscription sseStartedState = (sseStartedState, .ok (), []) :=
  sseStartIdempotentAndNeverTornDown.1 sseStartedState rfl

/-- Claim C10: removing a channel that is not in the registry is a
complete no-op — state unchanged, no done signal closed, no channel close
scheduled, no unsubscribe call — and after any removal the channel is
absent from the registry, so a second removal of the same channel is also
a no-op (its done signal is never closed twice). -/
theorem removeUnknownChannelIsNoop :
    (∀ (s : ClientState) (ch : Nat), s.listeners.lookup ch = none →
      RemoveEventsListener s ch = (s, [])) ∧
    (∀ (s : ClientState) (ch : Nat),
      (((RemoveEventsListener s ch).1).listeners).lookup ch = none) ∧
    (∀ (s : ClientState) (ch : Nat),
      RemoveEventsListener ((RemoveEventsListener s ch).1) ch =
        ((RemoveEventsListener s ch).1, [])) := by
  have hnone : ∀ (s : ClientState) (ch : Nat), s.listeners.lookup ch = none →
      RemoveEventsListener s ch = (s, []) := by
    intro s ch h
    unfold RemoveEventsListener
    rw [h]
  have hafter : ∀ (s : ClientState) (ch : Nat),
      (((RemoveEventsListener s ch).1).listeners).lookup ch = none := by
    intro s ch
    unfold RemoveEventsListener
    cases hl : s.listeners.lookup ch with
    | none => exact hl
    | some ctx => exact lookup_filter_key_self s.listeners ch
  exact ⟨hnone, hafter, fun s ch => hnone _ ch (hafter s ch)⟩

/-- Claim C10 witness: removing an unknown channel handle from a client
with one listener changes nothing and produces no effects. -/
theorem removeUnknownChannelIsNoopWitness :
    RemoveEventsListener oneListenerState 99 = (oneListenerState, []) :=
  removeUnknownChannelIsNoop.1 oneListenerState 99 rfl

end Marathon
